import Mathlib

/-!
Shallow embedding of the derived-metrics and mission-engine logic of the
NutriSnap application, together with proofs checking the specification's
claims against it.

Time is modelled in minutes in a single timezone (the application builds
and compares all `Date` values in one zone); a calendar date is its day
number, its `Date` parse being midnight of that day.  Numeric record
fields are rationals (JS numbers on the inputs the claims range over),
mission bookkeeping fields are integers.
-/

namespace NutriSnap

/-- Minutes in one day; the unit of all timestamps in this model. -/
def minutesPerDay : Nat := 1440

/-- `new Date(now.getFullYear(), now.getMonth(), now.getDate())`:
midnight of the calendar day containing `now`. -/
def startOfDay (now : Nat) : Nat := now / minutesPerDay * minutesPerDay

/-- Calendar day number of a timestamp (what
`toISOString().split('T')[0]` identifies). -/
def dayOf (now : Nat) : Nat := now / minutesPerDay

/-! ## Metrics aggregator (HomeScreen `loadDashboardData`) -/

/-- A food record; `date` is the calendar day number of its `date`
string, the nutrient fields are the numeric columns the aggregation
reads. -/
structure Food where
  date : Nat
  calories : ℚ
  protein : ℚ
  fat : ℚ
  carbs : ℚ
deriving DecidableEq

/-- An exercise record with the fields the aggregation reads. -/
structure Exercise where
  date : Nat
  caloriesBurned : ℚ
deriving DecidableEq

inductive CalorieStatus
  | surplus
  | deficit
deriving DecidableEq

/-- `todayFoods.reduce((sum, food) => sum + food.calories, 0)` over the
foods whose `date` string equals the target date. -/
def caloriesIn (foods : List Food) (today : Nat) : ℚ :=
  ((foods.filter (fun f => f.date == today)).map (fun f => f.calories)).sum

/-- Per-day sum of `caloriesBurned` over the exercises dated `today`. -/
def caloriesOut (exercises : List Exercise) (today : Nat) : ℚ :=
  ((exercises.filter (fun e => e.date == today)).map (fun e => e.caloriesBurned)).sum

/-- `setNetCalories(totalCaloriesIn - totalCaloriesOut)`. -/
def netCalories (foods : List Food) (exercises : List Exercise) (today : Nat) : ℚ :=
  caloriesIn foods today - caloriesOut exercises today

/-- `totalCaloriesIn > totalCaloriesOut ? 'surplus' : 'deficit'`. -/
def calorieStatus (foods : List Food) (exercises : List Exercise) (today : Nat) :
    CalorieStatus :=
  if caloriesOut exercises today < caloriesIn foods today then .surplus else .deficit

/-- `Array.from({length: 7}, (_, i) => today - i).reverse()`: the seven
day numbers ending at `today`, oldest first. -/
def last7Days (today : Nat) : List Nat :=
  ((List.range 7).map (fun i => today - i)).reverse

/-- `weeklyIn = last7Days.map(date => sum of calories dated date)`. -/
def weeklyIn (foods : List Food) (today : Nat) : List ℚ :=
  (last7Days today).map (fun d => caloriesIn foods d)

/-- `weeklyOut = last7Days.map(date => sum of caloriesBurned dated date)`. -/
def weeklyOut (exercises : List Exercise) (today : Nat) : List ℚ :=
  (last7Days today).map (fun d => caloriesOut exercises d)

/-- JavaScript `Math.round`: round half toward positive infinity. -/
def jsRound (q : ℚ) : ℤ := ⌊q + 1 / 2⌋

/-- The filter `new Date(food.date) >= sevenDaysAgo` where
`sevenDaysAgo` is `now` minus seven days (keeping the time of day) and
the food's date parses to midnight of its calendar day.  There is no
upper bound, so future-dated records pass as well. -/
def last7DaysFoods (foods : List Food) (now : Nat) : List Food :=
  foods.filter (fun f => decide (now - 7 * minutesPerDay ≤ f.date * minutesPerDay))

/-- `Math.max(1, last7DaysFoods.length > 0 ? 7 : 0)`. -/
def daysCount (foods : List Food) (now : Nat) : Nat :=
  max 1 (if 0 < (last7DaysFoods foods now).length then 7 else 0)

/-- `Math.round(totalProtein / daysCount)`. -/
def macroProtein (foods : List Food) (now : Nat) : ℤ :=
  jsRound (((last7DaysFoods foods now).map (fun f => f.protein)).sum / (daysCount foods now : ℚ))

/-- `Math.round(totalFat / daysCount)`. -/
def macroFat (foods : List Food) (now : Nat) : ℤ :=
  jsRound (((last7DaysFoods foods now).map (fun f => f.fat)).sum / (daysCount foods now : ℚ))

/-- `Math.round(totalCarbs / daysCount)`. -/
def macroCarbs (foods : List Food) (now : Nat) : ℤ :=
  jsRound (((last7DaysFoods foods now).map (fun f => f.carbs)).sum / (daysCount foods now : ℚ))

/-! ## Trend classifier -/

/-- A weight record with the fields the classifier reads. -/
structure WeightRecord where
  weight : ℚ
  date : Nat
deriving DecidableEq

inductive Trend
  | increasing
  | decreasing
  | stagnant
deriving DecidableEq

/-- WeightTrackingScreen `loadData`: on the records sorted newest first,
compare the two most recent weights; below two records the `weightTrend`
state stays `null` (insufficient data). -/
def weightTrendOf (records : List WeightRecord) : Option Trend :=
  match records with
  | r0 :: r1 :: _ =>
      some (if r0.weight < r1.weight then .decreasing
            else if r1.weight < r0.weight then .increasing
            else .stagnant)
  | _ => none

/-- HomeScreen `loadDashboardData`: the same two-point comparison, but
the `weightTrend` state is only assigned when at least two records
exist; otherwise it keeps its previous value. -/
def homeWeightTrend (prev : Trend) (records : List WeightRecord) : Trend :=
  match records with
  | r0 :: r1 :: _ =>
      if r0.weight < r1.weight then .decreasing
      else if r1.weight < r0.weight then .increasing
      else .stagnant
  | _ => prev

/-- `useState<...>('stagnant')`: the initial HomeScreen trend state. -/
def homeWeightTrendInit : Trend := .stagnant

/-! ## Mission engine (MissionsScreen) -/

inductive MissionType
  | daily
  | weekly
  | special
deriving DecidableEq

/-- A mission row as stored and loaded; `title` is the template's
translation key. -/
structure Mission where
  id : Nat
  type : MissionType
  title : String
  points : Int
  target : Int
  progress : Int
  completed : Bool
  expiresAt : Nat
  createdAt : Nat
deriving DecidableEq

/-- The title/points/target data of one template literal. -/
structure MissionTemplate where
  title : String
  points : Int
  target : Int
deriving DecidableEq

/-- `dailyMissionTemplates` in `generateDailyMissions`. -/
def dailyMissionTemplates : List MissionTemplate :=
  [⟨"logFoodTwice", 10, 2⟩, ⟨"logExerciseOnce", 15, 1⟩, ⟨"consumeFiber", 20, 25⟩]

/-- `weeklyMissionTemplates` in `generateWeeklyMissions`. -/
def weeklyMissionTemplates : List MissionTemplate :=
  [⟨"burnCalories", 50, 1000⟩, ⟨"noFriedFood", 40, 3⟩, ⟨"proteinIntake", 45, 50⟩]

/-- The mission object built from one template before insertion (the
store assigns the row id at insert time, modelled by `assignIds`). -/
def instantiate (t : MissionType) (expiresAt now : Nat) (tpl : MissionTemplate) : Mission :=
  { id := 0, type := t, title := tpl.title, points := tpl.points, target := tpl.target,
    progress := 0, completed := false, expiresAt := expiresAt, createdAt := now }

/-- `generateDailyMissions`: `tomorrow = new Date(year, month, date + 1)`
is midnight of the day after `now`. -/
def generateDailyMissions (now : Nat) : List Mission :=
  dailyMissionTemplates.map (instantiate .daily (startOfDay now + minutesPerDay) now)

/-- `generateWeeklyMissions`: `nextWeek = new Date(year, month, date + 7)`
is midnight of the seventh day after `now`. -/
def generateWeeklyMissions (now : Nat) : List Mission :=
  weeklyMissionTemplates.map (instantiate .weekly (startOfDay now + 7 * minutesPerDay) now)

/-- The filter in `checkAndGenerateMissions`:
`mission.type === t && new Date(mission.expiresAt) >= today`. -/
def isActiveOfType (t : MissionType) (today : Nat) (m : Mission) : Bool :=
  m.type == t && decide (today ≤ m.expiresAt)

/-- One if-block of `checkAndGenerateMissions` in isolation, with `gen`
the batch its generation call would build: the block generates exactly
when the list it filters has no mission of type `t` with `expiresAt` on
or after midnight of the current day (`dailyMissions.length === 0`).
The full run, including the re-entrant reload each generation ends
with, is `checkGen`/`ensureMissions` below. -/
def ensureForType (t : MissionType) (gen : Nat → List Mission) (now : Nat)
    (currentMissions : List Mission) : List Mission :=
  if (currentMissions.filter (isActiveOfType t (startOfDay now))).length = 0
  then gen now else []

/-- A fresh row id beyond every id in the store. -/
def freshId (store : List Mission) : Nat :=
  (store.map (fun m => m.id)).foldr max 0 + 1

/-- Ids the store hands out on insertion, one per inserted row. -/
def assignIds (base : Nat) : List Mission → List Mission
  | [] => []
  | m :: ms => { m with id := base } :: assignIds (base + 1) ms

/-- The success path of one generation function's insert loop: the
store appends the batch, assigning fresh row ids. -/
def insertBatch (store batch : List Mission) : List Mission :=
  store ++ assignIds (freshId store) batch

/-- `checkAndGenerateMissions(userId, currentMissions)` together with
the re-entrant `await loadData()` that ends each generation function:
the reload re-fetches the store and runs the check again on the fresh
list, while the suspended outer check still filters its stale
`currentMissions`.  Here `current` is the list the check filters (stale
below the entry level) and `store` the actual store content; the result
is the final store.  (The sort in `loadData` only reorders the fetched
list and affects neither the filters nor which rows exist.)  The first
argument bounds the recursion depth: a generated batch is active on its
creation day because its `expiresAt` is a following midnight, so the
reload chain of a run entered, as in `loadData`, with `current = store`
generates at most one daily and two weekly batches and the depth-0
fallback is never reached from `ensureMissions`. -/
def checkGen : Nat → Nat → List Mission → List Mission → List Mission
  | 0, _, _, store => store
  | fuel + 1, now, current, store =>
      let store1 :=
        if (current.filter (isActiveOfType .daily (startOfDay now))).length = 0 then
          checkGen fuel now (insertBatch store (generateDailyMissions now))
            (insertBatch store (generateDailyMissions now))
        else store
      if (current.filter (isActiveOfType .weekly (startOfDay now))).length = 0 then
        checkGen fuel now (insertBatch store1 (generateWeeklyMissions now))
          (insertBatch store1 (generateWeeklyMissions now))
      else store1

/-- One ensure run of `loadData`: fetch the user's missions and run
`checkAndGenerateMissions`, with its reload cascade, on them. -/
def ensureMissions (now : Nat) (store : List Mission) : List Mission :=
  checkGen 3 now store store

/-! ## Mission progress updates -/

/-- Outcome of one remote write: success, an error returned in the
result object (how the store reports storage failures), or a thrown
exception. -/
inductive WriteOutcome
  | ok
  | errReturned
  | thrown
deriving DecidableEq

/-- Which table a write went to. -/
inductive WriteTarget
  | missions
  | users
deriving DecidableEq

/-- The user's rows as the screen sees them after `loadData`: the
mission list and the user's points (screen state and store agree at that
point, and `updateMissionProgress` re-runs `loadData` before returning). -/
structure EngineState where
  missions : List Mission
  points : Int
deriving DecidableEq

/-- Observable outcome of one `updateMissionProgress` call: the store
state afterwards, the `updateData` calls issued in order, whether the
catch branch showed the error alert, and whether the completion alert
was shown. -/
structure UpdateResult where
  state : EngineState
  writes : List WriteTarget
  errorAlert : Bool
  congratsAlert : Bool
deriving DecidableEq

/-- Effect on the missions table of
`updateData('missions', missionId, { progress, completed })`: every row
whose id equals `missionId` gets the new progress and completed flag. -/
def setProgress (missionId : Nat) (p : Int) (c : Bool) (ms : List Mission) : List Mission :=
  ms.map (fun m => if m.id == missionId then { m with progress := p, completed := c } else m)

/-- `updateMissionProgress(missionId, newProgress)` with the outcome of
each remote write injected.  The mission write's returned error is
re-thrown and caught (error alert); the users write's returned error is
not checked, so the code continues as on success. -/
def updateMissionProgressF (s : EngineState) (missionId : Nat) (newProgress : Int)
    (missionWrite usersWrite : WriteOutcome) : UpdateResult :=
  match s.missions.find? (fun m => m.id == missionId) with
  | none => ⟨s, [], false, false⟩
  | some mission =>
      let completed : Bool := decide (mission.target ≤ newProgress)
      match missionWrite with
      | .errReturned => ⟨s, [.missions], true, false⟩
      | .thrown => ⟨s, [.missions], true, false⟩
      | .ok =>
          let s1 : EngineState :=
            { s with missions := setProgress missionId newProgress completed s.missions }
          if completed && !mission.completed then
            match usersWrite with
            | .ok => ⟨{ s1 with points := s.points + mission.points },
                      [.missions, .users], false, true⟩
            | .errReturned => ⟨s1, [.missions, .users], false, true⟩
            | .thrown => ⟨s1, [.missions, .users], true, false⟩
          else ⟨s1, [.missions], false, false⟩

/-- The success path of `updateMissionProgress`. -/
def updateMissionProgress (s : EngineState) (missionId : Nat) (newProgress : Int) :
    EngineState :=
  (updateMissionProgressF s missionId newProgress .ok .ok).state

/-- `renderMissionItem`: the progress shown is
`Math.min(item.progress, item.target)`. -/
def renderProgress (m : Mission) : Int := min m.progress m.target

/-- Observable outcome of the insert loop of a generation run: the rows
the store accepted, how many `insertData` calls were issued, and whether
an exception reached the catch (which only logs; generation shows no
alert). -/
structure GenResult where
  inserted : List Mission
  attempts : Nat
  threw : Bool
deriving DecidableEq

/-- The `for (const template of ...) await insertData(...)` loop with
write outcomes injected, one per attempted insert (`.ok` when the list
runs out).  The result object of each insert is ignored, so a returned
error skips that row silently and the loop continues; a thrown error
aborts the loop into the catch. -/
def insertLoop : List Mission → List WriteOutcome → GenResult
  | [], _ => ⟨[], 0, false⟩
  | m :: ms, outs =>
      match outs.headD .ok with
      | .thrown => ⟨[], 1, true⟩
      | .errReturned =>
          let r := insertLoop ms outs.tail
          ⟨r.inserted, r.attempts + 1, r.threw⟩
      | .ok =>
          let r := insertLoop ms outs.tail
          ⟨m :: r.inserted, r.attempts + 1, r.threw⟩

/-- `generateDailyMissions` with per-insert write outcomes injected. -/
def generateDailyMissionsF (now : Nat) (outs : List WriteOutcome) : GenResult :=
  insertLoop (generateDailyMissions now) outs

/-! ## Helper lemmas -/

theorem find?_setProgress (missionId : Nat) (p : Int) (c : Bool) (ms : List Mission) :
    (setProgress missionId p c ms).find? (fun m => m.id == missionId)
      = (ms.find? (fun m => m.id == missionId)).map
          (fun m => { m with progress := p, completed := c }) := by
  induction ms with
  | nil => rfl
  | cons a as ih =>
      simp only [setProgress, List.map_cons] at ih ⊢
      by_cases h : (a.id == missionId) = true
      · have h2 : (({ a with progress := p, completed := c } : Mission).id == missionId) = true := h
        rw [if_pos h, List.find?_cons_of_pos (p := fun (m : Mission) => m.id == missionId) _ h2,
            List.find?_cons_of_pos (p := fun (m : Mission) => m.id == missionId) _ h]
        rfl
      · rw [if_neg h, List.find?_cons_of_neg (p := fun (m : Mission) => m.id == missionId) _ h,
            List.find?_cons_of_neg (p := fun (m : Mission) => m.id == missionId) _ h]
        exact ih

theorem updateMissionProgress_missions (s : EngineState) (missionId : Nat) (p : Int)
    (m : Mission) (hfind : s.missions.find? (fun x => x.id == missionId) = some m) :
    (updateMissionProgress s missionId p).missions
      = setProgress missionId p (decide (m.target ≤ p)) s.missions := by
  unfold updateMissionProgress updateMissionProgressF
  rw [hfind]
  by_cases h : (decide (m.target ≤ p) && !m.completed) = true
  · simp [h]
  · simp [h]

theorem updateMissionProgress_points (s : EngineState) (missionId : Nat) (p : Int)
    (m : Mission) (hfind : s.missions.find? (fun x => x.id == missionId) = some m) :
    (updateMissionProgress s missionId p).points
      = (if decide (m.target ≤ p) && !m.completed then s.points + m.points else s.points) := by
  unfold updateMissionProgress updateMissionProgressF
  rw [hfind]
  by_cases h : (decide (m.target ≤ p) && !m.completed) = true
  · simp [h]
  · simp [h]

/-! ## Claims -/

/-- C4: for every collection of food and exercise entries and target
date, `netCalories = caloriesIn - caloriesOut`, and `calorieStatus` is
`surplus` exactly when `caloriesIn > caloriesOut`, resolving to
`deficit` on equality. -/
theorem daily_net_calories_status (foods : List Food) (exercises : List Exercise)
    (today : Nat) :
    netCalories foods exercises today
      = caloriesIn foods today - caloriesOut exercises today ∧
    (calorieStatus foods exercises today = .surplus ↔
      caloriesOut exercises today < caloriesIn foods today) ∧
    (calorieStatus foods exercises today = .deficit ↔
      caloriesIn foods today ≤ caloriesOut exercises today) := by
  by_cases h : caloriesOut exercises today < caloriesIn foods today
  · simp [netCalories, calorieStatus, h, not_le.mpr h]
  · simp [netCalories, calorieStatus, h, not_lt.mp h]

/-- C10: a progress report whose mission id matches no loaded mission
returns without issuing any write, leaving the store (missions and
points) untouched and showing no alert, whatever the remote outcomes
would have been. -/
theorem updateMissionProgress_unknown_id_noop (s : EngineState) (missionId : Nat)
    (newProgress : Int) (missionWrite usersWrite : WriteOutcome)
    (hfind : s.missions.find? (fun m => m.id == missionId) = none) :
    updateMissionProgressF s missionId newProgress missionWrite usersWrite
      = ⟨s, [], false, false⟩ := by
  unfold updateMissionProgressF
  rw [hfind]

/-- Witness for C10 at a concrete state whose only mission has id 1
while id 42 is reported. -/
theorem updateMissionProgress_unknown_id_noop_witness :
    updateMissionProgressF ⟨[⟨1, .daily, "logFoodTwice", 10, 2, 0, false, 1440, 0⟩], 5⟩
        42 3 .ok .ok
      = ⟨⟨[⟨1, .daily, "logFoodTwice", 10, 2, 0, false, 1440, 0⟩], 5⟩, [], false, false⟩ :=
  updateMissionProgress_unknown_id_noop
    ⟨[⟨1, .daily, "logFoodTwice", 10, 2, 0, false, 1440, 0⟩], 5⟩ 42 3 .ok .ok (by decide)

/-- C3 counterexample: on the HomeScreen dashboard the trend state keeps
its initial value `'stagnant'` when there are fewer than two
observations, so the classifier there does yield one of
increasing/decreasing/stagnant rather than "insufficient data". -/
theorem homeWeightTrend_default_counterexample :
    homeWeightTrend homeWeightTrendInit [] = Trend.stagnant := rfl

/-- C3 (amended): on records sorted newest first, the
WeightTrackingScreen classifier yields `none` (insufficient data) below
two observations while the HomeScreen dashboard keeps its previous trend
value (initially `'stagnant'`); with two or more observations both
compare `records[0]` to `records[1]`: `decreasing` if newer < older,
`increasing` if newer > older, `stagnant` if equal. -/
theorem trend_two_point_classification (prev t : Trend)
    (records rest : List WeightRecord) (r0 r1 : WeightRecord)
    (hshort : records.length < 2) :
    weightTrendOf records = none ∧
    homeWeightTrend prev records = prev ∧
    (weightTrendOf (r0 :: r1 :: rest) = some t ↔
      (t = .decreasing ∧ r0.weight < r1.weight) ∨
      (t = .increasing ∧ r1.weight < r0.weight) ∨
      (t = .stagnant ∧ r0.weight = r1.weight)) ∧
    homeWeightTrend prev (r0 :: r1 :: rest) = (weightTrendOf (r0 :: r1 :: rest)).getD prev := by
  refine ⟨?_, ?_, ?_, rfl⟩
  · match records, hshort with
    | [], _ => rfl
    | [r], _ => rfl
  · match records, hshort with
    | [], _ => rfl
    | [r], _ => rfl
  · rcases lt_trichotomy r0.weight r1.weight with h | h | h
    · simp [weightTrendOf, h, not_lt_of_gt h, ne_of_lt h]
      cases t <;> simp_all
    · simp [weightTrendOf, h, lt_irrefl]
      cases t <;> simp_all
    · simp [weightTrendOf, h, not_lt_of_gt h, (ne_of_lt h).symm]
      cases t <;> simp_all

/-- Witness for C3: the empty record list is short, and a newest-first
pair 70 then 72 classifies as decreasing on both screens. -/
theorem trend_two_point_classification_witness :
    weightTrendOf [] = none ∧
    homeWeightTrend .stagnant [] = .stagnant ∧
    (weightTrendOf [⟨70, 2⟩, ⟨72, 1⟩] = some .decreasing ↔
      (Trend.decreasing = .decreasing ∧ (70 : ℚ) < 72) ∨
      (Trend.decreasing = .increasing ∧ (72 : ℚ) < 70) ∨
      (Trend.decreasing = .stagnant ∧ (70 : ℚ) = 72)) ∧
    homeWeightTrend .stagnant [⟨70, 2⟩, ⟨72, 1⟩]
      = (weightTrendOf [⟨70, 2⟩, ⟨72, 1⟩]).getD .stagnant :=
  trend_two_point_classification .stagnant .decreasing [] [] ⟨70, 2⟩ ⟨72, 1⟩ (by decide)

/-- C8: a progress report persists the raw `newProgress` together with
`completed = (newProgress >= target)` on every row of that mission id,
while the rendered progress is clamped to `min(newProgress, target)`. -/
theorem updateMissionProgress_persists_raw_progress (s : EngineState) (missionId : Nat)
    (newProgress : Int) (m : Mission)
    (hfind : s.missions.find? (fun x => x.id == missionId) = some m) :
    (updateMissionProgress s missionId newProgress).missions.find?
        (fun x => x.id == missionId)
      = some { m with progress := newProgress,
                      completed := decide (m.target ≤ newProgress) } ∧
    renderProgress { m with progress := newProgress,
                            completed := decide (m.target ≤ newProgress) }
      = min newProgress m.target := by
  constructor
  · rw [updateMissionProgress_missions s missionId newProgress m hfind,
        find?_setProgress, hfind]
    rfl
  · rfl

/-- Witness for C8: reporting progress 5 on a mission with target 2
stores raw progress 5 with `completed = true` and renders 2. -/
theorem updateMissionProgress_persists_raw_progress_witness :
    (updateMissionProgress ⟨[⟨1, .daily, "logFoodTwice", 10, 2, 0, false, 1440, 0⟩], 0⟩
        1 5).missions.find? (fun x => x.id == 1)
      = some { (⟨1, .daily, "logFoodTwice", 10, 2, 0, false, 1440, 0⟩ : Mission) with
               progress := 5, completed := decide ((2 : Int) ≤ 5) } ∧
    renderProgress { (⟨1, .daily, "logFoodTwice", 10, 2, 0, false, 1440, 0⟩ : Mission) with
                     progress := 5, completed := decide ((2 : Int) ≤ 5) }
      = min 5 2 :=
  updateMissionProgress_persists_raw_progress
    ⟨[⟨1, .daily, "logFoodTwice", 10, 2, 0, false, 1440, 0⟩], 0⟩ 1 5
    ⟨1, .daily, "logFoodTwice", 10, 2, 0, false, 1440, 0⟩ (by decide)

/-- C1: a report that reaches the target on a mission whose stored
`completed` flag is false credits `mission.points` exactly once; the
immediately repeated report on the same mission credits nothing, and any
report on a mission whose stored flag is already true credits nothing. -/
theorem updateMissionProgress_credits_points_once
    (s t : EngineState) (missionId missionId2 : Nat) (p1 p2 q : Int) (m m2 : Mission)
    (hfind : s.missions.find? (fun x => x.id == missionId) = some m)
    (hnc : m.completed = false)
    (h1 : m.target ≤ p1) (_h2 : m.target ≤ p2)
    (hfind2 : t.missions.find? (fun x => x.id == missionId2) = some m2)
    (hc2 : m2.completed = true) :
    (updateMissionProgress s missionId p1).points = s.points + m.points ∧
    (updateMissionProgress (updateMissionProgress s missionId p1) missionId p2).points
      = (updateMissionProgress s missionId p1).points ∧
    (updateMissionProgress t missionId2 q).points = t.points := by
  have hfind1 : (updateMissionProgress s missionId p1).missions.find?
      (fun x => x.id == missionId)
      = some { m with progress := p1, completed := decide (m.target ≤ p1) } := by
    rw [updateMissionProgress_missions s missionId p1 m hfind, find?_setProgress, hfind]
    rfl
  refine ⟨?_, ?_, ?_⟩
  · rw [updateMissionProgress_points s missionId p1 m hfind]
    simp [h1, hnc]
  · rw [updateMissionProgress_points _ missionId p2 _ hfind1]
    simp [h1]
  · rw [updateMissionProgress_points t missionId2 q m2 hfind2]
    simp [hc2]

/-- Witness for C1: target 2 reached twice in a row credits the 10
mission points once, and a report on an already-completed mission leaves
points at 7. -/
theorem updateMissionProgress_credits_points_once_witness :
    (updateMissionProgress ⟨[⟨1, .daily, "logFoodTwice", 10, 2, 0, false, 1440, 0⟩], 0⟩
        1 2).points
      = (⟨[⟨1, .daily, "logFoodTwice", 10, 2, 0, false, 1440, 0⟩], 0⟩ : EngineState).points
        + 10 ∧
    (updateMissionProgress
        (updateMissionProgress ⟨[⟨1, .daily, "logFoodTwice", 10, 2, 0, false, 1440, 0⟩], 0⟩
          1 2) 1 3).points
      = (updateMissionProgress ⟨[⟨1, .daily, "logFoodTwice", 10, 2, 0, false, 1440, 0⟩], 0⟩
          1 2).points ∧
    (updateMissionProgress
        ⟨[⟨2, .weekly, "burnCalories", 50, 1000, 1000, true, 10080, 0⟩], 7⟩ 2 1200).points
      = (⟨[⟨2, .weekly, "burnCalories", 50, 1000, 1000, true, 10080, 0⟩], 7⟩ :
          EngineState).points :=
  updateMissionProgress_credits_points_once
    ⟨[⟨1, .daily, "logFoodTwice", 10, 2, 0, false, 1440, 0⟩], 0⟩
    ⟨[⟨2, .weekly, "burnCalories", 50, 1000, 1000, true, 10080, 0⟩], 7⟩
    1 2 2 3 1200
    ⟨1, .daily, "logFoodTwice", 10, 2, 0, false, 1440, 0⟩
    ⟨2, .weekly, "burnCalories", 50, 1000, 1000, true, 10080, 0⟩
    (by decide) (by decide) (by decide) (by decide) (by decide) (by decide)

/-- C5: the weekly series has exactly 7 elements per dataset, one per
calendar date for the 7 dates ending at today (oldest first), each the
per-day sum, and a date with no entries contributes 0. -/
theorem weekly_series_seven_days (foods : List Food) (exercises : List Exercise)
    (today d e : Nat) (h : 6 ≤ today)
    (hd : foods.filter (fun f => f.date == d) = [])
    (he : exercises.filter (fun x => x.date == e) = []) :
    (weeklyIn foods today).length = 7 ∧
    (weeklyOut exercises today).length = 7 ∧
    weeklyIn foods today
      = [caloriesIn foods (today - 6), caloriesIn foods (today - 5),
         caloriesIn foods (today - 4), caloriesIn foods (today - 3),
         caloriesIn foods (today - 2), caloriesIn foods (today - 1),
         caloriesIn foods today] ∧
    weeklyOut exercises today
      = [caloriesOut exercises (today - 6), caloriesOut exercises (today - 5),
         caloriesOut exercises (today - 4), caloriesOut exercises (today - 3),
         caloriesOut exercises (today - 2), caloriesOut exercises (today - 1),
         caloriesOut exercises today] ∧
    (last7Days today).Nodup ∧
    caloriesIn foods d = 0 ∧
    caloriesOut exercises e = 0 := by
  refine ⟨rfl, rfl, rfl, rfl, ?_, ?_, ?_⟩
  · have hl : last7Days today
        = [today - 6, today - 5, today - 4, today - 3, today - 2, today - 1, today] := rfl
    rw [hl]
    simp [List.nodup_cons, List.mem_cons]
    omega
  · unfold caloriesIn
    rw [hd]
    rfl
  · unfold caloriesOut
    rw [he]
    rfl

/-- Witness for C5 at day 6 with no entries at all. -/
theorem weekly_series_seven_days_witness :
    (weeklyIn [] 6).length = 7 ∧
    (weeklyOut [] 6).length = 7 ∧
    weeklyIn [] 6
      = [caloriesIn [] 0, caloriesIn [] 1, caloriesIn [] 2, caloriesIn [] 3,
         caloriesIn [] 4, caloriesIn [] 5, caloriesIn [] 6] ∧
    weeklyOut [] 6
      = [caloriesOut [] 0, caloriesOut [] 1, caloriesOut [] 2, caloriesOut [] 3,
         caloriesOut [] 4, caloriesOut [] 5, caloriesOut [] 6] ∧
    (last7Days 6).Nodup ∧
    caloriesIn [] 0 = 0 ∧
    caloriesOut [] 0 = 0 :=
  weekly_series_seven_days [] [] 6 0 0 (by decide) rfl rfl

/-- C6 counterexample: with a single qualifying entry of protein 1 the
code reports `Math.round(1/7) = 0`, not the claimed exact quotient
`1/7`. -/
theorem macro_average_rounding_counterexample :
    ¬ (((macroProtein [⟨14, 0, 1, 0, 0⟩] 20160 : ℤ) : ℚ)
        = (((last7DaysFoods [⟨14, 0, 1, 0, 0⟩] 20160).map (fun f => f.protein)).sum) / 7) := by
  have hfil : last7DaysFoods [⟨14, 0, 1, 0, 0⟩] 20160 = [⟨14, 0, 1, 0, 0⟩] := rfl
  intro hcl
  rw [hfil] at hcl
  simp [macroProtein, daysCount, hfil, jsRound] at hcl
  norm_num at hcl

/-- C6 (amended): the macro averages equal the sums of protein, fat and
carbs over the entries whose calendar date starts on or after now − 7
days (the last 7 calendar days, future-dated entries included), divided
by 7 and rounded half-up to the nearest integer when at least one such
entry exists, and equal 0 when none does, the divide-by-zero being
guarded by denominator 1 with zero numerators. -/
theorem macro_averages_rounded (foods foods0 : List Food) (now : Nat) (f : Food)
    (hne : last7DaysFoods foods now ≠ [])
    (h0 : last7DaysFoods foods0 now = []) :
    macroProtein foods now
      = jsRound (((last7DaysFoods foods now).map (fun x => x.protein)).sum / 7) ∧
    macroFat foods now
      = jsRound (((last7DaysFoods foods now).map (fun x => x.fat)).sum / 7) ∧
    macroCarbs foods now
      = jsRound (((last7DaysFoods foods now).map (fun x => x.carbs)).sum / 7) ∧
    macroProtein foods0 now = 0 ∧ macroFat foods0 now = 0 ∧ macroCarbs foods0 now = 0 ∧
    (f ∈ last7DaysFoods foods now ↔
      f ∈ foods ∧ now ≤ f.date * minutesPerDay + 7 * minutesPerDay) := by
  have hdc : (daysCount foods now : ℚ) = 7 := by
    have hp : 0 < (last7DaysFoods foods now).length := List.length_pos.mpr hne
    simp [daysCount, hp]
  have hdc0 : (daysCount foods0 now : ℚ) = 1 := by
    simp [daysCount, h0]
  refine ⟨?_, ?_, ?_, ?_, ?_, ?_, ?_⟩
  · unfold macroProtein
    rw [hdc]
  · unfold macroFat
    rw [hdc]
  · unfold macroCarbs
    rw [hdc]
  · unfold macroProtein
    rw [hdc0, h0]
    simp [jsRound]
    norm_num
  · unfold macroFat
    rw [hdc0, h0]
    simp [jsRound]
    norm_num
  · unfold macroCarbs
    rw [hdc0, h0]
    simp [jsRound]
    norm_num
  · simp [last7DaysFoods, List.mem_filter, Nat.sub_le_iff_le_add]

/-- Witness for C6: one qualifying entry and an empty collection. -/
theorem macro_averages_rounded_witness :
    macroProtein [⟨14, 0, 1, 0, 0⟩] 20160
      = jsRound (((last7DaysFoods [⟨14, 0, 1, 0, 0⟩] 20160).map (fun x => x.protein)).sum / 7) ∧
    macroFat [⟨14, 0, 1, 0, 0⟩] 20160
      = jsRound (((last7DaysFoods [⟨14, 0, 1, 0, 0⟩] 20160).map (fun x => x.fat)).sum / 7) ∧
    macroCarbs [⟨14, 0, 1, 0, 0⟩] 20160
      = jsRound (((last7DaysFoods [⟨14, 0, 1, 0, 0⟩] 20160).map (fun x => x.carbs)).sum / 7) ∧
    macroProtein [] 20160 = 0 ∧ macroFat [] 20160 = 0 ∧ macroCarbs [] 20160 = 0 ∧
    ((⟨14, 0, 1, 0, 0⟩ : Food) ∈ last7DaysFoods [⟨14, 0, 1, 0, 0⟩] 20160 ↔
      (⟨14, 0, 1, 0, 0⟩ : Food) ∈ ([⟨14, 0, 1, 0, 0⟩] : List Food) ∧
        20160 ≤ 14 * minutesPerDay + 7 * minutesPerDay) :=
  macro_averages_rounded [⟨14, 0, 1, 0, 0⟩] [] 20160 ⟨14, 0, 1, 0, 0⟩ (by decide) rfl

/-- Unfolding of one `checkGen` step with the intermediate store named
by the code's control flow written out. -/
theorem checkGen_succ (fuel now : Nat) (current store : List Mission) :
    checkGen (fuel + 1) now current store
      = if (current.filter (isActiveOfType .weekly (startOfDay now))).length = 0 then
          checkGen fuel now
            (insertBatch
              (if (current.filter (isActiveOfType .daily (startOfDay now))).length = 0 then
                checkGen fuel now (insertBatch store (generateDailyMissions now))
                  (insertBatch store (generateDailyMissions now))
              else store)
              (generateWeeklyMissions now))
            (insertBatch
              (if (current.filter (isActiveOfType .daily (startOfDay now))).length = 0 then
                checkGen fuel now (insertBatch store (generateDailyMissions now))
                  (insertBatch store (generateDailyMissions now))
              else store)
              (generateWeeklyMissions now))
        else
          if (current.filter (isActiveOfType .daily (startOfDay now))).length = 0 then
            checkGen fuel now (insertBatch store (generateDailyMissions now))
              (insertBatch store (generateDailyMissions now))
          else store := rfl

theorem exists_active_assignIds (t : MissionType) (d b : Nat) (ms : List Mission)
    (h : ∃ m ∈ ms, isActiveOfType t d m = true) :
    ∃ m ∈ assignIds b ms, isActiveOfType t d m = true := by
  induction ms generalizing b with
  | nil => rcases h with ⟨m, hm, _⟩; simp at hm
  | cons a as ih =>
      rcases h with ⟨m, hm, hP⟩
      rcases List.mem_cons.mp hm with rfl | hm2
      · exact ⟨{ m with id := b }, List.mem_cons_self _ _, hP⟩
      · rcases ih (b + 1) ⟨m, hm2, hP⟩ with ⟨m2, hm3, hP2⟩
        exact ⟨m2, List.mem_cons_of_mem _ hm3, hP2⟩

theorem filter_length_ne_zero (p : Mission → Bool) (l : List Mission)
    (h : ∃ m ∈ l, p m = true) : ¬ (l.filter p).length = 0 := by
  rcases h with ⟨m, hm, hp⟩
  have hmem : m ∈ l.filter p := List.mem_filter.mpr ⟨hm, hp⟩
  intro hlen
  rw [List.length_eq_zero] at hlen
  rw [hlen] at hmem
  simp at hmem

theorem exists_of_filter_length_ne_zero (p : Mission → Bool) (l : List Mission)
    (h : ¬ (l.filter p).length = 0) : ∃ m ∈ l, p m = true := by
  have hne : l.filter p ≠ [] := fun hnil => h (by rw [hnil]; rfl)
  rcases List.exists_mem_of_ne_nil _ hne with ⟨m, hm⟩
  rcases List.mem_filter.mp hm with ⟨h1, h2⟩
  exact ⟨m, h1, h2⟩

theorem ensureForType_noop (t : MissionType) (gen : Nat → List Mission) (now : Nat)
    (current : List Mission)
    (h : ∃ m ∈ current, isActiveOfType t (startOfDay now) m = true) :
    ensureForType t gen now current = [] := by
  unfold ensureForType
  rw [if_neg (filter_length_ne_zero _ _ h)]

theorem exists_active_daily_insertBatch (now : Nat) (store : List Mission) :
    ∃ m ∈ insertBatch store (generateDailyMissions now),
      isActiveOfType .daily (startOfDay now) m = true := by
  have hx : ∃ m ∈ generateDailyMissions now,
      isActiveOfType .daily (startOfDay now) m = true := by
    refine ⟨instantiate .daily (startOfDay now + minutesPerDay) now ⟨"logFoodTwice", 10, 2⟩,
      ?_, ?_⟩
    · simp [generateDailyMissions, dailyMissionTemplates]
    · simp [isActiveOfType, instantiate]
  rcases exists_active_assignIds .daily (startOfDay now) (freshId store) _ hx with ⟨m, hm, hP⟩
  exact ⟨m, List.mem_append_right _ hm, hP⟩

theorem exists_active_weekly_insertBatch (now : Nat) (store : List Mission) :
    ∃ m ∈ insertBatch store (generateWeeklyMissions now),
      isActiveOfType .weekly (startOfDay now) m = true := by
  have hx : ∃ m ∈ generateWeeklyMissions now,
      isActiveOfType .weekly (startOfDay now) m = true := by
    refine ⟨instantiate .weekly (startOfDay now + 7 * minutesPerDay) now
      ⟨"burnCalories", 50, 1000⟩, ?_, ?_⟩
    · simp [generateWeeklyMissions, weeklyMissionTemplates]
    · simp [isActiveOfType, instantiate]
  rcases exists_active_assignIds .weekly (startOfDay now) (freshId store) _ hx with ⟨m, hm, hP⟩
  exact ⟨m, List.mem_append_right _ hm, hP⟩

theorem filter_weekly_daily_batch (d b now : Nat) :
    (assignIds b (generateDailyMissions now)).filter (isActiveOfType .weekly d) = [] := rfl

/-- Both checks satisfied: the step inserts nothing and the store is
returned as is. -/
theorem checkGen_noop (fuel now : Nat) (current store : List Mission)
    (hd : ¬ (current.filter (isActiveOfType .daily (startOfDay now))).length = 0)
    (hw : ¬ (current.filter (isActiveOfType .weekly (startOfDay now))).length = 0) :
    checkGen (fuel + 1) now current store = store := by
  rw [checkGen_succ, if_neg hw, if_neg hd]

/-- Daily active, weekly absent: one weekly batch is inserted and its
reload is a no-op. -/
theorem checkGen_weekly_only (fuel now : Nat) (store : List Mission)
    (hd : ¬ (store.filter (isActiveOfType .daily (startOfDay now))).length = 0)
    (hw : (store.filter (isActiveOfType .weekly (startOfDay now))).length = 0) :
    checkGen (fuel + 1 + 1) now store store
      = insertBatch store (generateWeeklyMissions now) := by
  have hd2 : ¬ ((insertBatch store (generateWeeklyMissions now)).filter
      (isActiveOfType .daily (startOfDay now))).length = 0 := by
    rcases exists_of_filter_length_ne_zero _ _ hd with ⟨m, hm, hP⟩
    exact filter_length_ne_zero _ _ ⟨m, List.mem_append_left _ hm, hP⟩
  have hw2 : ¬ ((insertBatch store (generateWeeklyMissions now)).filter
      (isActiveOfType .weekly (startOfDay now))).length = 0 :=
    filter_length_ne_zero _ _ (exists_active_weekly_insertBatch now store)
  rw [checkGen_succ, if_pos hw, if_neg hd]
  exact checkGen_noop fuel now _ _ hd2 hw2

/-- Daily absent, weekly active: one daily batch is inserted; its
reload and the outer weekly check are no-ops. -/
theorem checkGen_daily_only (fuel now : Nat) (store : List Mission)
    (hd : (store.filter (isActiveOfType .daily (startOfDay now))).length = 0)
    (hw : ¬ (store.filter (isActiveOfType .weekly (startOfDay now))).length = 0) :
    checkGen (fuel + 1 + 1) now store store
      = insertBatch store (generateDailyMissions now) := by
  have hd2 : ¬ ((insertBatch store (generateDailyMissions now)).filter
      (isActiveOfType .daily (startOfDay now))).length = 0 :=
    filter_length_ne_zero _ _ (exists_active_daily_insertBatch now store)
  have hw2 : ¬ ((insertBatch store (generateDailyMissions now)).filter
      (isActiveOfType .weekly (startOfDay now))).length = 0 := by
    rcases exists_of_filter_length_ne_zero _ _ hw with ⟨m, hm, hP⟩
    exact filter_length_ne_zero _ _ ⟨m, List.mem_append_left _ hm, hP⟩
  rw [checkGen_succ, if_neg hw, if_pos hd]
  exact checkGen_noop fuel now _ _ hd2 hw2

/-- Both absent: the daily batch is inserted, its re-entrant reload
inserts one weekly batch, and the outer check — still filtering its
stale list — inserts the weekly batch a second time. -/
theorem checkGen_both (fuel now : Nat) (store : List Mission)
    (hd : (store.filter (isActiveOfType .daily (startOfDay now))).length = 0)
    (hw : (store.filter (isActiveOfType .weekly (startOfDay now))).length = 0) :
    checkGen (fuel + 1 + 1 + 1) now store store
      = insertBatch
          (insertBatch (insertBatch store (generateDailyMissions now))
            (generateWeeklyMissions now))
          (generateWeeklyMissions now) := by
  have hd1 : ¬ ((insertBatch store (generateDailyMissions now)).filter
      (isActiveOfType .daily (startOfDay now))).length = 0 :=
    filter_length_ne_zero _ _ (exists_active_daily_insertBatch now store)
  have hw1 : ((insertBatch store (generateDailyMissions now)).filter
      (isActiveOfType .weekly (startOfDay now))).length = 0 := by
    unfold insertBatch
    rw [List.filter_append, filter_weekly_daily_batch]
    simpa using hw
  have hinner : checkGen (fuel + 1 + 1) now (insertBatch store (generateDailyMissions now))
      (insertBatch store (generateDailyMissions now))
      = insertBatch (insertBatch store (generateDailyMissions now))
          (generateWeeklyMissions now) :=
    checkGen_weekly_only fuel now _ hd1 hw1
  have hd3 : ¬ ((insertBatch (insertBatch (insertBatch store (generateDailyMissions now))
        (generateWeeklyMissions now)) (generateWeeklyMissions now)).filter
      (isActiveOfType .daily (startOfDay now))).length = 0 := by
    rcases exists_active_daily_insertBatch now store with ⟨m, hm, hP⟩
    exact filter_length_ne_zero _ _
      ⟨m, List.mem_append_left _ (List.mem_append_left _ hm), hP⟩
  have hw3 : ¬ ((insertBatch (insertBatch (insertBatch store (generateDailyMissions now))
        (generateWeeklyMissions now)) (generateWeeklyMissions now)).filter
      (isActiveOfType .weekly (startOfDay now))).length = 0 :=
    filter_length_ne_zero _ _ (exists_active_weekly_insertBatch now
      (insertBatch (insertBatch store (generateDailyMissions now))
        (generateWeeklyMissions now)))
  rw [checkGen_succ, if_pos hw, if_pos hd, hinner]
  exact checkGen_noop (fuel + 1) now _ _ hd3 hw3

theorem exists_active_daily_ensure (now : Nat) (store : List Mission) :
    ∃ m ∈ ensureMissions now store, isActiveOfType .daily (startOfDay now) m = true := by
  by_cases hd : (store.filter (isActiveOfType .daily (startOfDay now))).length = 0
  · by_cases hw : (store.filter (isActiveOfType .weekly (startOfDay now))).length = 0
    · have he : ensureMissions now store
          = insertBatch (insertBatch (insertBatch store (generateDailyMissions now))
              (generateWeeklyMissions now)) (generateWeeklyMissions now) :=
        checkGen_both 0 now store hd hw
      rcases exists_active_daily_insertBatch now store with ⟨m, hm, hP⟩
      refine ⟨m, ?_, hP⟩
      rw [he]
      exact List.mem_append_left _ (List.mem_append_left _ hm)
    · have he : ensureMissions now store = insertBatch store (generateDailyMissions now) :=
        checkGen_daily_only 1 now store hd hw
      rcases exists_active_daily_insertBatch now store with ⟨m, hm, hP⟩
      exact ⟨m, by rw [he]; exact hm, hP⟩
  · rcases exists_of_filter_length_ne_zero _ _ hd with ⟨m, hm, hP⟩
    by_cases hw : (store.filter (isActiveOfType .weekly (startOfDay now))).length = 0
    · have he : ensureMissions now store = insertBatch store (generateWeeklyMissions now) :=
        checkGen_weekly_only 1 now store hd hw
      exact ⟨m, by rw [he]; exact List.mem_append_left _ hm, hP⟩
    · have he : ensureMissions now store = store := checkGen_noop 2 now store store hd hw
      exact ⟨m, by rw [he]; exact hm, hP⟩

theorem exists_active_weekly_ensure (now : Nat) (store : List Mission) :
    ∃ m ∈ ensureMissions now store, isActiveOfType .weekly (startOfDay now) m = true := by
  by_cases hd : (store.filter (isActiveOfType .daily (startOfDay now))).length = 0
  · by_cases hw : (store.filter (isActiveOfType .weekly (startOfDay now))).length = 0
    · have he : ensureMissions now store
          = insertBatch (insertBatch (insertBatch store (generateDailyMissions now))
              (generateWeeklyMissions now)) (generateWeeklyMissions now) :=
        checkGen_both 0 now store hd hw
      rcases exists_active_weekly_insertBatch now
          (insertBatch (insertBatch store (generateDailyMissions now))
            (generateWeeklyMissions now)) with ⟨m, hm, hP⟩
      exact ⟨m, by rw [he]; exact hm, hP⟩
    · rcases exists_of_filter_length_ne_zero _ _ hw with ⟨m, hm, hP⟩
      have he : ensureMissions now store = insertBatch store (generateDailyMissions now) :=
        checkGen_daily_only 1 now store hd hw
      exact ⟨m, by rw [he]; exact List.mem_append_left _ hm, hP⟩
  · by_cases hw : (store.filter (isActiveOfType .weekly (startOfDay now))).length = 0
    · have he : ensureMissions now store = insertBatch store (generateWeeklyMissions now) :=
        checkGen_weekly_only 1 now store hd hw
      rcases exists_active_weekly_insertBatch now store with ⟨m, hm, hP⟩
      exact ⟨m, by rw [he]; exact hm, hP⟩
    · rcases exists_of_filter_length_ne_zero _ _ hw with ⟨m, hm, hP⟩
      have he : ensureMissions now store = store := checkGen_noop 2 now store store hd hw
      exact ⟨m, by rw [he]; exact hm, hP⟩

/-- C7 counterexample: a daily mission generated at noon of day 0
(minute 720) expires at minute 1440, midnight of the next day, not at
`now + 1 day = 2160`; and an ensure run from an empty store persists 6
weekly rows, not 3, because the re-entrant reload inside the daily
generation generates the weekly batch once and the outer check, still
filtering its stale list, generates it again. -/
theorem generateMissions_expiry_duplicate_counterexample :
    ¬ (∀ m ∈ generateDailyMissions 720, m.expiresAt = 720 + minutesPerDay) ∧
    ((ensureMissions 720 []).filter (fun m => m.type == MissionType.weekly)).length = 6 ∧
    ((ensureMissions 720 []).filter (fun m => m.type == MissionType.daily)).length = 3 := by
  refine ⟨by decide, by decide, by decide⟩

/-- C7 (amended): the generated batches are exactly the 3 daily (resp.
3 weekly) template missions with `progress = 0`, `completed = false`
and `expiresAt` equal to midnight of the day 1 day (daily) or 7 days
(weekly) after the current day.  When exactly one period type has no
unexpired mission, the run persists that type's 3 missions; when both
types are missing, the re-entrant reload after daily generation
persists the weekly batch once and the outer check, still filtering the
stale mission list, persists it a second time: 3 daily and 6 weekly
missions. -/
theorem generate_missions_from_templates
    (now : Nat) (store storeD storeW : List Mission) (md mw : Mission)
    (hd : (store.filter (isActiveOfType .daily (startOfDay now))).length = 0)
    (hw : (store.filter (isActiveOfType .weekly (startOfDay now))).length = 0)
    (hdD : (storeD.filter (isActiveOfType .daily (startOfDay now))).length = 0)
    (hmw : mw ∈ storeD) (hmwt : mw.type = .weekly) (hmwe : startOfDay now ≤ mw.expiresAt)
    (hwW : (storeW.filter (isActiveOfType .weekly (startOfDay now))).length = 0)
    (hmd : md ∈ storeW) (hmdt : md.type = .daily) (hmde : startOfDay now ≤ md.expiresAt) :
    generateDailyMissions now
      = [⟨0, .daily, "logFoodTwice", 10, 2, 0, false, startOfDay now + minutesPerDay, now⟩,
         ⟨0, .daily, "logExerciseOnce", 15, 1, 0, false, startOfDay now + minutesPerDay, now⟩,
         ⟨0, .daily, "consumeFiber", 20, 25, 0, false, startOfDay now + minutesPerDay, now⟩] ∧
    generateWeeklyMissions now
      = [⟨0, .weekly, "burnCalories", 50, 1000, 0, false,
          startOfDay now + 7 * minutesPerDay, now⟩,
         ⟨0, .weekly, "noFriedFood", 40, 3, 0, false,
          startOfDay now + 7 * minutesPerDay, now⟩,
         ⟨0, .weekly, "proteinIntake", 45, 50, 0, false,
          startOfDay now + 7 * minutesPerDay, now⟩] ∧
    ensureMissions now storeD = insertBatch storeD (generateDailyMissions now) ∧
    ensureMissions now storeW = insertBatch storeW (generateWeeklyMissions now) ∧
    ensureMissions now store
      = insertBatch
          (insertBatch (insertBatch store (generateDailyMissions now))
            (generateWeeklyMissions now))
          (generateWeeklyMissions now) := by
  refine ⟨rfl, rfl, ?_, ?_, ?_⟩
  · have hwD : ¬ (storeD.filter (isActiveOfType .weekly (startOfDay now))).length = 0 :=
      filter_length_ne_zero _ _ ⟨mw, hmw, by simp [isActiveOfType, hmwt, hmwe]⟩
    exact checkGen_daily_only 1 now storeD hdD hwD
  · have hdW : ¬ (storeW.filter (isActiveOfType .daily (startOfDay now))).length = 0 :=
      filter_length_ne_zero _ _ ⟨md, hmd, by simp [isActiveOfType, hmdt, hmde]⟩
    exact checkGen_weekly_only 1 now storeW hdW hwW
  · exact checkGen_both 0 now store hd hw

/-- Witness for C7 at noon of day 0: an empty store (both types
missing), a store with only an active weekly, and a store with only an
active daily. -/
theorem generate_missions_from_templates_witness :
    generateDailyMissions 720
      = [⟨0, .daily, "logFoodTwice", 10, 2, 0, false, startOfDay 720 + minutesPerDay, 720⟩,
         ⟨0, .daily, "logExerciseOnce", 15, 1, 0, false, startOfDay 720 + minutesPerDay, 720⟩,
         ⟨0, .daily, "consumeFiber", 20, 25, 0, false, startOfDay 720 + minutesPerDay, 720⟩] ∧
    generateWeeklyMissions 720
      = [⟨0, .weekly, "burnCalories", 50, 1000, 0, false,
          startOfDay 720 + 7 * minutesPerDay, 720⟩,
         ⟨0, .weekly, "noFriedFood", 40, 3, 0, false,
          startOfDay 720 + 7 * minutesPerDay, 720⟩,
         ⟨0, .weekly, "proteinIntake", 45, 50, 0, false,
          startOfDay 720 + 7 * minutesPerDay, 720⟩] ∧
    ensureMissions 720 [⟨9, .weekly, "burnCalories", 50, 1000, 0, false, 20000, 0⟩]
      = insertBatch [⟨9, .weekly, "burnCalories", 50, 1000, 0, false, 20000, 0⟩]
          (generateDailyMissions 720) ∧
    ensureMissions 720 [⟨8, .daily, "logFoodTwice", 10, 2, 0, false, 1440, 0⟩]
      = insertBatch [⟨8, .daily, "logFoodTwice", 10, 2, 0, false, 1440, 0⟩]
          (generateWeeklyMissions 720) ∧
    ensureMissions 720 []
      = insertBatch
          (insertBatch (insertBatch [] (generateDailyMissions 720))
            (generateWeeklyMissions 720))
          (generateWeeklyMissions 720) :=
  generate_missions_from_templates 720 []
    [⟨9, .weekly, "burnCalories", 50, 1000, 0, false, 20000, 0⟩]
    [⟨8, .daily, "logFoodTwice", 10, 2, 0, false, 1440, 0⟩]
    ⟨8, .daily, "logFoodTwice", 10, 2, 0, false, 1440, 0⟩
    ⟨9, .weekly, "burnCalories", 50, 1000, 0, false, 20000, 0⟩
    rfl rfl rfl (by decide) rfl (by decide) rfl (by decide) rfl (by decide)

/-- C2: the ensure-missions check is idempotent.  If a mission of the
requested period type with `expiresAt` on or after the start of the
current period (midnight of the current day, which is what the code
computes for both period types) is already loaded, the check generates
nothing for that type; consequently running the whole ensure step twice
within the same day leaves the mission set exactly as after the first
run, with no duplicates. -/
theorem ensureMissions_idempotent (now now2 : Nat) (current store : List Mission)
    (t : MissionType) (gen : Nat → List Mission) (m : Mission)
    (hm : m ∈ current) (ht : m.type = t) (hexp : startOfDay now ≤ m.expiresAt)
    (hsame : startOfDay now2 = startOfDay now) :
    ensureForType t gen now current = [] ∧
    ensureMissions now2 (ensureMissions now store) = ensureMissions now store := by
  constructor
  · exact ensureForType_noop t gen now current ⟨m, hm, by simp [isActiveOfType, ht, hexp]⟩
  · have hda := exists_active_daily_ensure now store
    have hwa := exists_active_weekly_ensure now store
    have hd2 : ¬ ((ensureMissions now store).filter
        (isActiveOfType .daily (startOfDay now2))).length = 0 := by
      rw [hsame]
      exact filter_length_ne_zero _ _ hda
    have hw2 : ¬ ((ensureMissions now store).filter
        (isActiveOfType .weekly (startOfDay now2))).length = 0 := by
      rw [hsame]
      exact filter_length_ne_zero _ _ hwa
    exact checkGen_noop 2 now2 _ _ hd2 hw2

/-- Witness for C2: an active daily mission suppresses generation, and
running the ensure step at minute 720 and again at minute 1000 of the
same day changes nothing the second time. -/
theorem ensureMissions_idempotent_witness :
    ensureForType .daily generateDailyMissions 720
        [⟨1, .daily, "logFoodTwice", 10, 2, 0, false, 1500, 0⟩] = [] ∧
    ensureMissions 1000 (ensureMissions 720 []) = ensureMissions 720 [] :=
  ensureMissions_idempotent 720 1000
    [⟨1, .daily, "logFoodTwice", 10, 2, 0, false, 1500, 0⟩] [] .daily
    generateDailyMissions ⟨1, .daily, "logFoodTwice", 10, 2, 0, false, 1500, 0⟩
    (by decide) rfl (by decide) (by decide)

/-- C9 counterexample: when the mission write succeeds but the
user-points write returns a storage error, the error is not reported to
the caller (no error alert; the completion alert is even shown) although
a write of the update failed; the points are not credited. -/
theorem users_write_error_swallowed_counterexample :
    (updateMissionProgressF ⟨[⟨1, .daily, "logExerciseOnce", 15, 1, 0, false, 1440, 0⟩], 0⟩
        1 1 .ok .errReturned).errorAlert = false ∧
    (updateMissionProgressF ⟨[⟨1, .daily, "logExerciseOnce", 15, 1, 0, false, 1440, 0⟩], 0⟩
        1 1 .ok .errReturned).congratsAlert = true ∧
    (updateMissionProgressF ⟨[⟨1, .daily, "logExerciseOnce", 15, 1, 0, false, 1440, 0⟩], 0⟩
        1 1 .ok .errReturned).state.points = 0 :=
  ⟨rfl, rfl, rfl⟩

/-- C9 (amended): no failed write is retried (each table is written at
most once per call) and a failed write never credits points.  A failed
mission-record write is reported to the caller and leaves the store
unchanged; a failed user-points write after a successful mission write
leaves the points unchanged but is reported only when thrown — a
returned storage error is silently swallowed and the completion message
is still shown; a failed insert during generation is skipped silently
(thrown: the loop aborts with only a console log; returned: the
remaining templates are still inserted). -/
theorem write_failure_semantics (s : EngineState) (missionId : Nat) (p : Int)
    (m mm : Mission) (mw uw : WriteOutcome) (ms : List Mission) (outs : List WriteOutcome)
    (hfind : s.missions.find? (fun x => x.id == missionId) = some m)
    (hmw : mw ≠ .ok)
    (hnc : m.completed = false) (htar : m.target ≤ p) :
    updateMissionProgressF s missionId p mw uw = ⟨s, [.missions], true, false⟩ ∧
    updateMissionProgressF s missionId p .ok .errReturned
      = ⟨⟨setProgress missionId p true s.missions, s.points⟩, [.missions, .users],
         false, true⟩ ∧
    updateMissionProgressF s missionId p .ok .thrown
      = ⟨⟨setProgress missionId p true s.missions, s.points⟩, [.missions, .users],
         true, false⟩ ∧
    insertLoop (mm :: ms) (.errReturned :: outs)
      = ⟨(insertLoop ms outs).inserted, (insertLoop ms outs).attempts + 1,
         (insertLoop ms outs).threw⟩ ∧
    insertLoop (mm :: ms) (.thrown :: outs) = ⟨[], 1, true⟩ := by
  have hc : decide (m.target ≤ p) = true := decide_eq_true htar
  refine ⟨?_, ?_, ?_, rfl, rfl⟩
  · unfold updateMissionProgressF
    rw [hfind]
    cases mw with
    | ok => exact absurd rfl hmw
    | errReturned => rfl
    | thrown => rfl
  · unfold updateMissionProgressF
    rw [hfind]
    simp [hc, hnc]
  · unfold updateMissionProgressF
    rw [hfind]
    simp [hc, hnc]

/-- Witness for C9: a concrete mission with target 1 reported at 1,
under each failing outcome. -/
theorem write_failure_semantics_witness :
    updateMissionProgressF ⟨[⟨1, .daily, "logExerciseOnce", 15, 1, 0, false, 1440, 0⟩], 0⟩
        1 1 .errReturned .ok
      = ⟨⟨[⟨1, .daily, "logExerciseOnce", 15, 1, 0, false, 1440, 0⟩], 0⟩,
         [.missions], true, false⟩ ∧
    updateMissionProgressF ⟨[⟨1, .daily, "logExerciseOnce", 15, 1, 0, false, 1440, 0⟩], 0⟩
        1 1 .ok .errReturned
      = ⟨⟨setProgress 1 1 true [⟨1, .daily, "logExerciseOnce", 15, 1, 0, false, 1440, 0⟩], 0⟩,
         [.missions, .users], false, true⟩ ∧
    updateMissionProgressF ⟨[⟨1, .daily, "logExerciseOnce", 15, 1, 0, false, 1440, 0⟩], 0⟩
        1 1 .ok .thrown
      = ⟨⟨setProgress 1 1 true [⟨1, .daily, "logExerciseOnce", 15, 1, 0, false, 1440, 0⟩], 0⟩,
         [.missions, .users], true, false⟩ ∧
    insertLoop [⟨0, .daily, "consumeFiber", 20, 25, 0, false, 1440, 0⟩] [.errReturned]
      = ⟨(insertLoop [] []).inserted, (insertLoop [] []).attempts + 1,
         (insertLoop [] []).threw⟩ ∧
    insertLoop [⟨0, .daily, "consumeFiber", 20, 25, 0, false, 1440, 0⟩] [.thrown]
      = ⟨[], 1, true⟩ :=
  write_failure_semantics ⟨[⟨1, .daily, "logExerciseOnce", 15, 1, 0, false, 1440, 0⟩], 0⟩
    1 1 ⟨1, .daily, "logExerciseOnce", 15, 1, 0, false, 1440, 0⟩
    ⟨0, .daily, "consumeFiber", 20, 25, 0, false, 1440, 0⟩ .errReturned .ok [] []
    (by decide) (by decide) (by decide) (by decide)

end NutriSnap
